import Mathlib

/-!
Shallow embedding of `src/core/error_handling.h`: the `EM_JS_REF` and
`EM_JS_NUM` wrapper templates for foreign-engine (JavaScript) callables,
and the `FAIL` / `FAIL_IF_NULL` / `FAIL_IF_MINUS_ONE` /
`FAIL_IF_ERR_OCCURRED` cleanup macros.

Modelling choices, each taken from the source text:
* The JavaScript body of a wrapped function can end in one of three ways:
  an explicit `return v`, a thrown exception, or falling off the end.
  Values crossing the foreign-call boundary are machine integers, taken
  as `Int` (pointers are represented as integers at that boundary, with
  `0` as the null sentinel).
* The catch block of each wrapper is embedded statement by statement
  (`throw e;`, `Module.handle_js_error(e);`, `return 0;` or `return -1;`)
  so that the dead code after the re-throw is part of the model, exactly
  as it is part of the source.
* The failure macros are state transformers over the process state they
  can observe or change: the embedded interpreter error indicator
  (`PyErr_Occurred`) and the list of messages received by `log_error`.
  Their result records whether control transfers to the `finally` label.
-/

namespace ErrorHandling

/-- An exception value at the foreign-call boundary: either an exception
thrown by the wrapped body (identified by an index), or the `new Error`
the wrapper itself constructs when control reaches the end of a function
without a return. -/
inductive JsError where
  | exn (i : Nat)
  | assertionError (msg : String)
deriving DecidableEq

/-- How the JavaScript body of a wrapped function ends: an explicit
`return v`, a thrown exception, or falling off the end of the body. -/
inductive BodyResult where
  | ret (v : Int)
  | throws (e : JsError)
  | fallsThrough
deriving DecidableEq

/-- One statement of a wrapper catch block, as written in the source:
`throw e;` (re-throw the caught exception), `Module.handle_js_error(e);`
(the hand-off call), or `return v;` (the sentinel return). -/
inductive CatchStmt where
  | rethrowCaught
  | handleJsError
  | returnConst (v : Int)
deriving DecidableEq

/-- The observable outcome of calling a wrapped function: it returns a
value across the boundary, or it throws. -/
inductive WrapperOutcome where
  | returns (v : Int)
  | throws (e : JsError)
deriving DecidableEq

/-- The catch block of `EM_JS_REF` (error_handling.h lines 44-49), in
source order: `throw e; Module.handle_js_error(e); return 0;`. -/
def catchBlockREF : List CatchStmt :=
  [CatchStmt.rethrowCaught, CatchStmt.handleJsError, CatchStmt.returnConst 0]

/-- The catch block of `EM_JS_NUM` (error_handling.h lines 58-63), in
source order: `throw e; Module.handle_js_error(e); return -1;`. -/
def catchBlockNUM : List CatchStmt :=
  [CatchStmt.rethrowCaught, CatchStmt.handleJsError, CatchStmt.returnConst (-1)]

/-- Runs the statements of a catch block in order, given the caught
exception `e` and the number of `Module.handle_js_error` calls made so
far. Returns the terminating outcome, if a statement terminated the
function, together with the final call count; `none` means control fell
off the end of the catch block. -/
def execCatch (e : JsError) : List CatchStmt → Nat → Option WrapperOutcome × Nat
  | [], n => (none, n)
  | CatchStmt.rethrowCaught :: _, n => (some (WrapperOutcome.throws e), n)
  | CatchStmt.handleJsError :: rest, n => execCatch e rest (n + 1)
  | CatchStmt.returnConst v :: _, n => (some (WrapperOutcome.returns v), n)

/-- The message of the trap at the end of `EM_JS_REF` (line 50). -/
def endOfFunctionTrap : JsError :=
  JsError.assertionError
    "Assertion error: control reached end of function without return"

/-- The `EM_JS_REF` wrapper (error_handling.h lines 39-51): run the body
inside `try`; on a throw run the catch block; if control reaches the end
of the function, `throw new Error(...)`. The second component counts the
calls made to `Module.handle_js_error`. -/
def EM_JS_REF (body : BodyResult) (hje : Nat) : WrapperOutcome × Nat :=
  match body with
  | BodyResult.ret v => (WrapperOutcome.returns v, hje)
  | BodyResult.throws e =>
    match execCatch e catchBlockREF hje with
    | (some o, n) => (o, n)
    | (none, n) => (WrapperOutcome.throws endOfFunctionTrap, n)
  | BodyResult.fallsThrough => (WrapperOutcome.throws endOfFunctionTrap, hje)

/-- The `EM_JS_NUM` wrapper (error_handling.h lines 53-65): run the body
inside `try`; on a throw run the catch block; if control reaches the end
of the function, `return 0;`. The second component counts the calls made
to `Module.handle_js_error`. -/
def EM_JS_NUM (body : BodyResult) (hje : Nat) : WrapperOutcome × Nat :=
  match body with
  | BodyResult.ret v => (WrapperOutcome.returns v, hje)
  | BodyResult.throws e =>
    match execCatch e catchBlockNUM hje with
    | (some o, n) => (o, n)
    | (none, n) => (WrapperOutcome.returns 0, n)
  | BodyResult.fallsThrough => (WrapperOutcome.returns 0, hje)

/-- The process state the failure macros can observe or change: the
embedded interpreter error indicator (whether `PyErr_Occurred()` returns
non-null) and the messages received so far by the `log_error` sink. -/
structure CState where
  errIndicator : Bool
  log : List String
deriving DecidableEq

/-- What a failure macro does with control: `transferToFinally` is the
`goto finally;`, `noEffect` is falling through to the next statement. -/
inductive FailOutcome where
  | transferToFinally
  | noEffect
deriving DecidableEq

/-- `FAIL()` in the non-diagnostic build (line 105, `DEBUG_F` not
defined): `goto finally;` and nothing else. -/
def FAIL (s : CState) : FailOutcome × CState :=
  (FailOutcome.transferToFinally, s)

/-- `FAIL_IF_NULL(ref)` (lines 108-113): `if (ref == NULL) { FAIL(); }`.
Pointer values at the boundary are integers with `0` as `NULL`. -/
def FAIL_IF_NULL (ref : Nat) (s : CState) : FailOutcome × CState :=
  if ref = 0 then FAIL s else (FailOutcome.noEffect, s)

/-- `FAIL_IF_MINUS_ONE(num)` (lines 115-120): the source guard is
`if (num != 0) { FAIL(); }`, embedded literally. -/
def FAIL_IF_MINUS_ONE (num : Int) (s : CState) : FailOutcome × CState :=
  if num ≠ 0 then FAIL s else (FailOutcome.noEffect, s)

/-- `FAIL_IF_ERR_OCCURRED()` (lines 122-127):
`if (PyErr_Occurred()) { FAIL(); }`. -/
def FAIL_IF_ERR_OCCURRED (s : CState) : FailOutcome × CState :=
  if s.errIndicator then FAIL s else (FailOutcome.noEffect, s)

/-- A source location, as supplied to the diagnostic `FAIL()` by the
`__LINE__`, `__func__` and `__FILE__` built-ins. -/
structure SrcLoc where
  line : Nat
  func : String
  file : String

/-- The message built by `asprintf` in the diagnostic `FAIL()` (lines
93-97): format string
`"Raised exception on line %d in func %s, file %s\n"`. -/
def failMessage (loc : SrcLoc) : String :=
  "Raised exception on line " ++ toString loc.line ++ " in func " ++
    loc.func ++ ", file " ++ loc.file ++ "\n"

/-- `log_error(msg)`: delivers `msg` to the logging sink and returns an
`errcode`. The source of this fragment declares the function but gives no
body, and `FAIL()` ignores its return value, so the returned status is an
arbitrary parameter here: the behaviour of the caller must not depend on
it. -/
def log_error (msg : String) (status : Int) (s : CState) : Int × CState :=
  (status, { s with log := s.log ++ [msg] })

/-- `FAIL()` in the diagnostic build (lines 90-102, `DEBUG_F` defined):
build the message with `asprintf`, pass it to `log_error`, free it, then
`goto finally`. The `status` parameter is the `errcode` that `log_error`
returns; the transfer happens whatever that status is. -/
def FAIL_DEBUG (loc : SrcLoc) (status : Int) (s : CState) : FailOutcome × CState :=
  (FailOutcome.transferToFinally, (log_error (failMessage loc) status s).2)

/-- `sub` occurs as a contiguous substring of `hay`. -/
def SubstrOf (sub hay : String) : Prop :=
  ∃ p q, hay.data = p ++ sub.data ++ q

/-- Claim C1, counterexample: with a throwing body, `EM_JS_REF` does not
return the no-value sentinel `0` and `EM_JS_NUM` does not return the
failure status `-1`: the catch path re-throws first. -/
theorem C1_counterexample :
    (EM_JS_REF (BodyResult.throws (JsError.exn 0)) 0).1 ≠
      WrapperOutcome.returns 0 ∧
    (EM_JS_NUM (BodyResult.throws (JsError.exn 0)) 0).1 ≠
      WrapperOutcome.returns (-1) := by
  decide

/-- Claim C1 as amended: when the body of a wrapped function throws, both
`EM_JS_REF` and `EM_JS_NUM` re-throw the caught exception; the
sentinel-return statements (`return 0;` in the `EM_JS_REF` catch block,
`return -1;` in the `EM_JS_NUM` catch block) are present in the source
but are unreachable dead code behind the re-throw. -/
theorem C1_throw_rethrows_sentinels_unreachable (e : JsError) (n : Nat) :
    (EM_JS_REF (BodyResult.throws e) n).1 = WrapperOutcome.throws e ∧
    (EM_JS_NUM (BodyResult.throws e) n).1 = WrapperOutcome.throws e ∧
    CatchStmt.returnConst 0 ∈ catchBlockREF ∧
    CatchStmt.returnConst (-1) ∈ catchBlockNUM := by
  refine ⟨rfl, rfl, ?_, ?_⟩ <;> simp [catchBlockREF, catchBlockNUM]

/-- Claim C2: for both wrapper variants, a throwing body makes the catch
path re-throw the caught exception unchanged to the caller; the outcome
being a throw (not a `returns`) shows the sentinel return was never
executed, and the `Module.handle_js_error` call count staying at `n`
shows the hand-off call was never executed. -/
theorem C2_catch_rethrows_without_handoff (e : JsError) (n : Nat) :
    EM_JS_REF (BodyResult.throws e) n = (WrapperOutcome.throws e, n) ∧
    EM_JS_NUM (BodyResult.throws e) n = (WrapperOutcome.throws e, n) :=
  ⟨rfl, rfl⟩

/-- Claim C3, evaluation at the failing input: the status value `1` is
neither `-1` nor `0`, yet `FAIL_IF_MINUS_ONE 1` transfers control to the
cleanup point, because the guard in the source is `num != 0` while the
documentation comment in the same header (line 86) reads
`FAIL_IF_MINUS_ONE(num) -- FAIL() if num == -1`. -/
theorem C3_guard_fires_on_positive_status :
    (FAIL_IF_MINUS_ONE 1 { errIndicator := false, log := [] }).1 =
      FailOutcome.transferToFinally := rfl

/-- Claim C4: `FAIL_IF_MINUS_ONE num` transfers control to the cleanup
point if and only if `num` is non-zero; in particular it never transfers
on `0` and always transfers on any non-zero value, reproducing the
literal `num != 0` guard of the source. -/
theorem C4_fail_if_minus_one_transfers_iff_nonzero (num : Int) (s : CState) :
    (FAIL_IF_MINUS_ONE num s).1 = FailOutcome.transferToFinally ↔ num ≠ 0 := by
  by_cases h : num = 0 <;> simp [FAIL_IF_MINUS_ONE, FAIL, h]

/-- Claim C5, counterexample: when the body completes without an explicit
return, `EM_JS_NUM` does not raise the unconditional trap; it returns the
numeric success status `0` instead. -/
theorem C5_counterexample :
    (EM_JS_NUM BodyResult.fallsThrough 0).1 = WrapperOutcome.returns 0 ∧
    (EM_JS_NUM BodyResult.fallsThrough 0).1 ≠
      WrapperOutcome.throws endOfFunctionTrap := by
  decide

/-- Claim C5 as amended: when the body completes without an explicit
return statement, `EM_JS_REF` raises the unconditional trap (throws the
end-of-function assertion error) rather than returning implicitly, while
`EM_JS_NUM` falls through to its final `return 0;` and returns the
success status. -/
theorem C5_fallthrough_ref_traps_num_returns_zero (n : Nat) :
    (EM_JS_REF BodyResult.fallsThrough n).1 =
      WrapperOutcome.throws endOfFunctionTrap ∧
    (EM_JS_NUM BodyResult.fallsThrough n).1 = WrapperOutcome.returns 0 :=
  ⟨rfl, rfl⟩

/-- Claim C6: when the body of an `EM_JS_NUM`-wrapped function completes
normally without an explicit return and without throwing, the wrapped
function returns the success status `0` (and performs no hand-off call). -/
theorem C6_num_fallthrough_returns_zero (n : Nat) :
    EM_JS_NUM BodyResult.fallsThrough n = (WrapperOutcome.returns 0, n) := rfl

/-- Claim C7: `FAIL_IF_NULL ref` transfers control to the cleanup point
if and only if `ref` is the null sentinel (`0` at the boundary), and in
every case the process state is left unchanged. -/
theorem C7_fail_if_null_transfers_iff_null (ref : Nat) (s : CState) :
    ((FAIL_IF_NULL ref s).1 = FailOutcome.transferToFinally ↔ ref = 0) ∧
    (FAIL_IF_NULL ref s).2 = s := by
  by_cases h : ref = 0 <;> simp [FAIL_IF_NULL, FAIL, h]

/-- Claim C8: `FAIL_IF_ERR_OCCURRED` transfers control to the cleanup
point if and only if the embedded interpreter error indicator is set at
call time, and in either case it leaves the whole process state, the
error indicator included, unchanged. -/
theorem C8_fail_if_err_occurred_iff_indicator (s : CState) :
    ((FAIL_IF_ERR_OCCURRED s).1 = FailOutcome.transferToFinally ↔
      s.errIndicator = true) ∧
    (FAIL_IF_ERR_OCCURRED s).2 = s := by
  by_cases h : s.errIndicator <;> simp [FAIL_IF_ERR_OCCURRED, FAIL, h]

/-- Claim C9: with `DEBUG_F` enabled, every `FAIL()` delivers exactly one
message to `log_error` (the log grows by precisely that one message),
the message contains the source line, the enclosing function name and
the file, the error indicator is untouched, and control transfers to the
cleanup point unconditionally, whatever status `log_error` returns. -/
theorem C9_debug_fail_logs_once_and_transfers (loc : SrcLoc) (status : Int)
    (s : CState) :
    (FAIL_DEBUG loc status s).1 = FailOutcome.transferToFinally ∧
    (FAIL_DEBUG loc status s).2.log = s.log ++ [failMessage loc] ∧
    (FAIL_DEBUG loc status s).2.errIndicator = s.errIndicator ∧
    SubstrOf (toString loc.line) (failMessage loc) ∧
    SubstrOf loc.func (failMessage loc) ∧
    SubstrOf loc.file (failMessage loc) := by
  refine ⟨rfl, rfl, rfl,
    ⟨"Raised exception on line ".data,
      (" in func " ++ loc.func ++ ", file " ++ loc.file ++ "\n").data, ?_⟩,
    ⟨("Raised exception on line " ++ toString loc.line ++ " in func ").data,
      (", file " ++ loc.file ++ "\n").data, ?_⟩,
    ⟨("Raised exception on line " ++ toString loc.line ++ " in func " ++
        loc.func ++ ", file ").data, "\n".data, ?_⟩⟩ <;>
    simp [failMessage, String.data_append, List.append_assoc]

/-- Claim C10: in the non-diagnostic build, `FAIL` only transfers control
and changes nothing; `FAIL_IF_NULL`, `FAIL_IF_MINUS_ONE` and
`FAIL_IF_ERR_OCCURRED` leave the process state (log and error indicator)
unchanged on every branch, and each is a complete no-op exactly on its
non-failure branch. -/
theorem C10_nondebug_macros_frame (ref : Nat) (num : Int) (s : CState) :
    FAIL s = (FailOutcome.transferToFinally, s) ∧
    (FAIL_IF_NULL ref s).2 = s ∧
    (FAIL_IF_MINUS_ONE num s).2 = s ∧
    (FAIL_IF_ERR_OCCURRED s).2 = s ∧
    ((FAIL_IF_NULL ref s).1 = FailOutcome.noEffect ↔ ref ≠ 0) ∧
    ((FAIL_IF_MINUS_ONE num s).1 = FailOutcome.noEffect ↔ num = 0) ∧
    ((FAIL_IF_ERR_OCCURRED s).1 = FailOutcome.noEffect ↔
      s.errIndicator = false) := by
  by_cases h1 : ref = 0 <;> by_cases h2 : num = 0 <;>
    by_cases h3 : s.errIndicator <;>
    simp [FAIL, FAIL_IF_NULL, FAIL_IF_MINUS_ONE, FAIL_IF_ERR_OCCURRED,
      h1, h2, h3]

end ErrorHandling
